import Mathlib

/-!
Verification of the GameDealsBuddy deal bot (`src/bot.py`).

The development shallowly embeds the bot's pure logic:
* the summarizer's local fallback (`summarize_text`, bot.py 64-89);
* webhook posting (`post_to_discord`, bot.py 92-101), whose outcome is a
  value because every exception is caught inside the function;
* the Steam and Epic fetchers (bot.py 104-126 and 157-183) over an abstract
  fetched-response type that covers request/parse failures and items whose
  per-item processing raises;
* the posted-deals cache (`load_cache`/`save_cache`, bot.py 23-43) over an
  abstract file-state type;
* the per-store processing loops (`process_steam_deals` /
  `process_epic_deals`, bot.py 186-212) with the effectful steps
  (enrichment, summarization, webhook delivery) supplied as oracles;
* an exception-propagating variant of the processing loops and `run_once`
  (bot.py 215-218) in which a deal description is an arbitrary Python
  scalar, to track the `AttributeError` raised by the summarizer's fallback
  on a non-string input.

Machine arithmetic: JSON prices and percentages are embedded as `Int`;
Python's true division in the Epic eligibility test is embedded exactly
over `ℚ`; Python's floor division `//` is `Int.fdiv`.
-/

namespace GameDealsBuddy

/-- Python exception kinds that the embedded code can raise. -/
inductive PyErr
  | attributeError
  | typeError
deriving Repr, DecidableEq

/-- A scalar Python value as it appears in decoded JSON fields
(string, integer, or `None`). -/
inductive PyScalar
  | str (s : String)
  | int (n : Int)
  | noneV
deriving Repr, DecidableEq

/-- Python `str()` on a scalar value. -/
def pyStrScalar : PyScalar → String
  | .str s => s
  | .int n => toString n
  | .noneV => "None"

/-- Python `str()` applied to an optional integer field
(`str(deal['id'])` where the id may be a JSON integer or absent/`None`). -/
def pyStrOfOptInt : Option Int → String
  | some n => toString n
  | none => "None"

/-- Python `str()` applied to an optional string field. -/
def pyStrOfOptStr : Option String → String
  | some s => s
  | none => "None"

/-! ### Summarizer (bot.py 64-89) -/

/-- Python single-character `str.replace` over the character list of a
string (`text.replace('\n', ' ')`). -/
def replaceChar (a b : Char) : List Char → List Char
  | [] => []
  | c :: cs => (if c = a then b else c) :: replaceChar a b cs

/-- Python `str.split(sep)` for a one-character separator: split at every
occurrence, keeping empty segments, so the result has one more segment
than there are separators (`''.split('.') == ['']`). -/
def splitOnChar (sep : Char) : List Char → List (List Char)
  | [] => [[]]
  | c :: cs =>
    if c = sep then [] :: splitOnChar sep cs
    else
      match splitOnChar sep cs with
      | [] => [[c]]
      | s :: ss => (c :: s) :: ss

/-- Python `str.strip()`: drop whitespace from both ends. -/
def stripChars (cs : List Char) : List Char :=
  ((cs.dropWhile Char.isWhitespace).reverse.dropWhile Char.isWhitespace).reverse

/-- The local fallback of `summarize_text` (bot.py 87-89):
`sentences = text.replace('\n', ' ').split('.')` followed by
`'. '.join(sentences[:2]).strip() + '.'`, carried out on the string's
character list (the built-in string traversals use well-founded recursion
and do not reduce inside the kernel). -/
def summarize_fallback (text : String) : String :=
  let sentences := splitOnChar '.' (replaceChar '\n' ' ' text.data)
  ⟨stripChars (List.intercalate ['.', ' '] (sentences.take 2)) ++ ['.']⟩

/-- `summarize_text` (bot.py 64-89).  The optional external service
(OpenAI, used only when both the API key and the client module are
present) is an oracle returning `none` when the call raises; any failure
falls through to the local fallback.  A successful reply is stripped. -/
def summarize_text (service : Option (String → Option String)) (text : String) : String :=
  match service with
  | some svc =>
    match svc text with
    | some reply => reply.trim
    | none => summarize_fallback text
  | none => summarize_fallback text

/-! ### Webhook announcer (bot.py 92-101) -/

/-- Behaviour of one `requests.post` call to the webhook: either an HTTP
response with a status code, or a raised exception. -/
inductive WebhookResp
  | status (code : Nat)
  | raised
deriving Repr, DecidableEq

/-- Observable outcome of `post_to_discord`; the function itself always
returns normally (every exception is caught, bot.py 100-101). -/
inductive PostOutcome
  | skippedNoUrl
  | success (code : Nat)
  | httpFailure (code : Nat)
  | exception
deriving Repr, DecidableEq

/-- `post_to_discord` (bot.py 92-101): skip with a warning when no webhook
URL is configured; log (not raise) on a status `>= 300`; catch any raised
exception. -/
def post_to_discord (url : Option String) (send : String → WebhookResp)
    (message : String) : PostOutcome :=
  match url with
  | none => .skippedNoUrl
  | some _ =>
    match send message with
    | .status code => if 300 ≤ code then .httpFailure code else .success code
    | .raised => .exception

/-! ### Steam fetcher (bot.py 104-126) -/

/-- One item of the Steam specials payload; each field models a
`item.get(...)` lookup, `none` when the key is absent. -/
structure SteamItem where
  id : Option Int
  name : Option String
  discount_percent : Option Int
  final_price : Option Int
  currency : Option String
deriving Repr, DecidableEq

/-- A normalized Steam deal dict as built at bot.py 114-121. -/
structure SteamDeal where
  store : String
  id : Option Int
  name : Option String
  discount_percent : Option Int
  final_price : ℚ
  currency : String
deriving Repr, DecidableEq

/-- Steam eligibility test (bot.py 113):
`item.get('discount_percent', 0) >= 50 or item.get('final_price', 1) == 0`. -/
def steamEligible (item : SteamItem) : Bool :=
  decide (50 ≤ item.discount_percent.getD 0) || item.final_price.getD 1 == 0

/-- The deal dict appended for an eligible Steam item (bot.py 114-121);
note the `final_price` default is `0` here but `1` in the eligibility
test. -/
def steamDealOf (item : SteamItem) : SteamDeal :=
  { store := "Steam"
    id := item.id
    name := item.name
    discount_percent := item.discount_percent
    final_price := (item.final_price.getD 0 : ℚ) / 100
    currency := item.currency.getD "USD" }

/-- Result of one fetch attempt against a storefront endpoint.
`fail` is any failure before item iteration begins (request exception,
HTTP error status via `raise_for_status`, JSON decode failure, or a
payload without the expected item list).  In `items`, an entry `none`
stands for an element whose per-item processing raises (e.g. a non-object
element, or a field of a type on which the arithmetic raises). -/
inductive Fetched (ι : Type)
  | fail
  | items (l : List (Option ι))

/-- The item loop of `fetch_steam_deals` (bot.py 112-121): `acc` is the
`deals` list accumulated so far; a raising item aborts the loop, and the
surrounding `except` blocks then fall through to `return deals`, so the
deals accumulated before the failure are returned. -/
def steamLoop : List SteamDeal → List (Option SteamItem) → List SteamDeal
  | acc, [] => acc
  | acc, none :: _ => acc
  | acc, some item :: rest =>
    steamLoop (if steamEligible item then acc ++ [steamDealOf item] else acc) rest

/-- `fetch_steam_deals` (bot.py 104-126). -/
def fetch_steam_deals : Fetched SteamItem → List SteamDeal
  | .fail => []
  | .items l => steamLoop [] l

/-! ### Epic fetcher (bot.py 157-183) -/

/-- `el.get('price', {}).get('totalPrice', {})` (bot.py 166); an absent
`price` or `totalPrice` object behaves like the record with every field
`none`. -/
structure TotalPrice where
  originalPrice : Option Int
  discountPrice : Option Int
  currencyCode : Option String
deriving Repr, DecidableEq

/-- One element of the Epic catalog payload. -/
structure EpicElement where
  id : Option String
  title : Option String
  description : Option String
  price : TotalPrice
deriving Repr, DecidableEq

/-- A normalized Epic deal dict as built at bot.py 170-178. -/
structure EpicDeal where
  store : String
  id : Option String
  name : Option String
  discount_percent : Int
  final_price : ℚ
  currency : String
  description : String
deriving Repr, DecidableEq

/-- Epic eligibility test (bot.py 167-169), with Python's precedence
`(original and (discount / original) <= 0.5) or discount == 0`:
`original = price_info.get('originalPrice', 0)` and
`discount = price_info.get('discountPrice', original)`; a zero `original`
is falsy, so the division is never reached when `original == 0`. -/
def epicEligible (p : TotalPrice) : Bool :=
  let original := p.originalPrice.getD 0
  let discount := p.discountPrice.getD original
  (!(original == 0) && decide ((discount : ℚ) / (original : ℚ) ≤ 1 / 2))
    || discount == 0

/-- `int(100 - (discount * 100 // original)) if original else 100`
(bot.py 174); Python's `//` on integers is floor division. -/
def epicDiscountPercent (p : TotalPrice) : Int :=
  let original := p.originalPrice.getD 0
  let discount := p.discountPrice.getD original
  if original ≠ 0 then 100 - (discount * 100).fdiv original else 100

/-- The deal dict appended for an eligible Epic element (bot.py 170-178). -/
def epicDealOf (el : EpicElement) : EpicDeal :=
  let original := el.price.originalPrice.getD 0
  let discount := el.price.discountPrice.getD original
  { store := "Epic"
    id := el.id
    name := el.title
    discount_percent := epicDiscountPercent el.price
    final_price := (discount : ℚ) / 100
    currency := el.price.currencyCode.getD "USD"
    description := el.description.getD "" }

/-- The element loop of `fetch_epic_deals` (bot.py 165-178), with the same
abort-and-return-accumulated behaviour as the Steam loop. -/
def epicLoop : List EpicDeal → List (Option EpicElement) → List EpicDeal
  | acc, [] => acc
  | acc, none :: _ => acc
  | acc, some el :: rest =>
    epicLoop (if epicEligible el.price then acc ++ [epicDealOf el] else acc) rest

/-- `fetch_epic_deals` (bot.py 157-183). -/
def fetch_epic_deals : Fetched EpicElement → List EpicDeal
  | .fail => []
  | .items l => epicLoop [] l

/-- The Epic inclusion rule as the specification words it (claim C3):
ratio `discountPrice / originalPrice` at most one half, or zero
`discountPrice`, with the zero-division case `originalPrice == 0`
"guarded and treated as included".  Stated for comparison with
`epicEligible`, which is translated from the source. -/
def epicEligibleSpec (p : TotalPrice) : Bool :=
  let original := p.originalPrice.getD 0
  let discount := p.discountPrice.getD original
  original == 0 || decide ((discount : ℚ) / (original : ℚ) ≤ 1 / 2)
    || discount == 0

/-! ### Posted-deals cache (bot.py 23-43) -/

/-- The in-memory cache `POSTED_DEALS`: one Python set of id strings per
store.  A set is embedded as a list of strings considered up to
membership (the only operations the bot performs are membership tests and
insertion, bot.py 189, 198, 204, 212). -/
structure Cache where
  steam : List String
  epic : List String
deriving Repr, DecidableEq

/-- A JSON value found under the `'Steam'` or `'Epic'` key of the
persisted cache file: an array of scalars, a string (which Python
iterates character by character), or a non-iterable scalar (on which the
generator in `load_cache` raises `TypeError`).  Nested containers are
not modelled; no claim depends on them. -/
inductive CacheVal
  | list (l : List PyScalar)
  | strv (s : String)
  | intv (n : Int)
  | nullv
deriving Repr, DecidableEq

/-- State of the persisted cache file as `load_cache` can encounter it:
absent (bot.py 24), unreadable (`open`/`json.load` raises, caught at
bot.py 33), parsed to a non-object (so `data.get` raises
`AttributeError`, caught at bot.py 33), or parsed to an object whose
`'Steam'`/`'Epic'` keys hold the given values (absent key modelled by
`none`, defaulting to `[]`). -/
inductive FileState
  | missing
  | unreadable
  | parsedNonDict
  | parsedDict (steamVal : Option CacheVal) (epicVal : Option CacheVal)

/-- `set(str(x) for x in v)` on a cache-file value (bot.py 30-31):
iterating a JSON array yields its elements, iterating a string yields its
one-character substrings, and any other value is not iterable. -/
def pyIterStrs : CacheVal → Except PyErr (List String)
  | .list l => .ok (l.map pyStrScalar)
  | .strv s => .ok (s.toList.map (fun c => c.toString))
  | .intv _ => .error .typeError
  | .nullv => .error .typeError

/-- The dict-building expression of `load_cache` (bot.py 29-32) on a
successfully parsed object: converts both keys, propagating the first
raised exception. -/
def loadConvert (steamVal epicVal : Option CacheVal) : Except PyErr Cache := do
  let s ← pyIterStrs (steamVal.getD (.list []))
  let e ← pyIterStrs (epicVal.getD (.list []))
  pure ⟨s, e⟩

/-- `load_cache` (bot.py 23-35): a missing file yields two empty sets
outright; any exception while reading, parsing or converting is caught
and likewise yields two empty sets. -/
def load_cache : FileState → Cache
  | .missing => ⟨[], []⟩
  | .unreadable => ⟨[], []⟩
  | .parsedNonDict => ⟨[], []⟩
  | .parsedDict steamVal epicVal =>
    match loadConvert steamVal epicVal with
    | .ok c => c
    | .error _ => ⟨[], []⟩

/-- `save_cache` (bot.py 38-43) after a successful write: the file holds
a JSON object with `list(cache['Steam'])` and `list(cache['Epic'])` as
arrays of strings. -/
def save_cache (c : Cache) : FileState :=
  .parsedDict (some (.list (c.steam.map PyScalar.str)))
    (some (.list (c.epic.map PyScalar.str)))

/-! ### Per-store processing (bot.py 186-212) -/

/-- Result of `fetch_steam_details` (bot.py 129-154): both sub-fetches
catch every exception internally and degrade to `''` / `'Unknown'`, so
the call always returns a pair. -/
structure Detail where
  description : String
  rating : String
deriving Repr, DecidableEq

/-- The recorded effect of one announcement: the message handed to
`post_to_discord` and the outcome of that call. -/
structure Announced where
  message : String
  outcome : PostOutcome
deriving Repr, DecidableEq

/-- The dedup-and-announce loop shared by `process_steam_deals` and
`process_epic_deals` (bot.py 186-198 and 201-212): for each fetched deal,
skip it when its id string is already in the store's cache set
(`continue`, so no enrichment, no summarization, no webhook call —
nothing of `announce` runs); otherwise run the announcement body and add
the id to the set.  Returns the updated set together with the list of
deals for which the body ran, each paired with its recorded effect. -/
def processLoopW {α β : Type} (idOf : α → String) (announce : α → β) :
    List String → List α → List String × List (α × β)
  | cache, [] => (cache, [])
  | cache, d :: rest =>
    if idOf d ∈ cache then processLoopW idOf announce cache rest
    else
      let a := announce d
      let r := processLoopW idOf announce (idOf d :: cache) rest
      (r.1, (d, a) :: r.2)

/-- `deal_id = str(deal['id'])` for a Steam deal (bot.py 188). -/
def steamDealIdStr (d : SteamDeal) : String := pyStrOfOptInt d.id

/-- `deal_id = str(deal['id'])` for an Epic deal (bot.py 203). -/
def epicDealIdStr (d : EpicDeal) : String := pyStrOfOptStr d.id

/-- The Steam announcement message (bot.py 193-196).  Numeric rendering of
the price stands in for Python float formatting; no claim concerns the
message text. -/
def steamMessage (deal : SteamDeal) (rating summary : String) : String :=
  "**" ++ pyStrOfOptStr deal.name ++ "** on Steam - "
    ++ pyStrOfOptInt deal.discount_percent ++ "% off\nPrice: "
    ++ toString deal.final_price ++ " " ++ deal.currency
    ++ "\nRating: " ++ rating ++ "\nSummary: " ++ summary

/-- The Epic announcement message (bot.py 207-210). -/
def epicMessage (deal : EpicDeal) (summary : String) : String :=
  "**" ++ pyStrOfOptStr deal.name ++ "** on Epic Games - "
    ++ toString deal.discount_percent ++ "% off\nPrice: "
    ++ toString deal.final_price ++ " " ++ deal.currency
    ++ "\nRating: N/A\nSummary: " ++ summary

/-- `process_steam_deals` (bot.py 186-198) over an already-fetched deal
list, the store's cache set, and oracles for the effectful steps:
`details` for `fetch_steam_details` (total — it catches everything),
`summarize` for `summarize_text`, and `post` for `post_to_discord`
(total — it catches everything). -/
def process_steam_deals (details : Option Int → Detail)
    (summarize : String → String) (post : String → PostOutcome)
    (cache : List String) (deals : List SteamDeal) :
    List String × List (SteamDeal × Announced) :=
  processLoopW steamDealIdStr
    (fun deal =>
      let det := details deal.id
      let summary := summarize det.description
      let message := steamMessage deal det.rating summary
      { message := message, outcome := post message })
    cache deals

/-- `process_epic_deals` (bot.py 201-212), analogously. -/
def process_epic_deals (summarize : String → String)
    (post : String → PostOutcome) (cache : List String)
    (deals : List EpicDeal) : List String × List (EpicDeal × Announced) :=
  processLoopW epicDealIdStr
    (fun deal =>
      let summary := summarize deal.description
      let message := epicMessage deal summary
      { message := message, outcome := post message })
    cache deals

/-! ### Exception flow through a cycle (bot.py 186-232)

`process_steam_deals`, `process_epic_deals`, `run_once` and `main`'s loop
contain no `try`/`except`; the variant below therefore propagates any
exception raised inside the loop body.  The one raise site the callees do
not swallow is the summarizer's local fallback, `text.replace(...)`
(bot.py 88), which raises `AttributeError` when `text` is not a string —
and a deal description is whatever JSON value the upstream payload held
(`el.get('description', '')`, bot.py 177, or
`data.get('short_description') or ''`, bot.py 136).  Deals here carry the
two fields the loop body reads before that raise site; message formatting
(pure and total) is an oracle. -/

/-- `fetch_steam_details` result with an unconstrained description value. -/
structure DetailV where
  description : PyScalar
  rating : String

/-- A fetched Steam deal, reduced to the fields read before the
summarizer runs. -/
structure SteamDealV where
  id : Option Int

/-- A fetched Epic deal, with its raw description value. -/
structure EpicDealV where
  id : Option String
  description : PyScalar

/-- `summarize_text` with no external service configured, on a raw
description value: the fallback's `text.replace('\n', ' ')` raises
`AttributeError` unless the value is a string. -/
def summarize_textV : PyScalar → Except PyErr String
  | .str s => .ok (summarize_fallback s)
  | _ => .error .attributeError

/-- `process_steam_deals` with exception propagation (bot.py 186-198):
no handler surrounds the loop body, so a raise aborts the whole
function. -/
def process_steam_dealsV (details : Option Int → DetailV)
    (post : String → PostOutcome) (msg : SteamDealV → String → String)
    (cache : List String) : List SteamDealV → Except PyErr (List String)
  | [] => .ok cache
  | d :: rest =>
    if pyStrOfOptInt d.id ∈ cache then
      process_steam_dealsV details post msg cache rest
    else
      match summarize_textV (details d.id).description with
      | .error e => .error e
      | .ok summary =>
        let _ := post (msg d summary)
        process_steam_dealsV details post msg (pyStrOfOptInt d.id :: cache) rest

/-- `process_epic_deals` with exception propagation (bot.py 201-212). -/
def process_epic_dealsV (post : String → PostOutcome)
    (msg : EpicDealV → String → String) (cache : List String) :
    List EpicDealV → Except PyErr (List String)
  | [] => .ok cache
  | d :: rest =>
    if pyStrOfOptStr d.id ∈ cache then process_epic_dealsV post msg cache rest
    else
      match summarize_textV d.description with
      | .error e => .error e
      | .ok summary =>
        let _ := post (msg d summary)
        process_epic_dealsV post msg (pyStrOfOptStr d.id :: cache) rest

/-- `run_once` (bot.py 215-218) with exception propagation: it calls the
two processing functions and `save_cache` with no handler, and `main`'s
`while True` loop (bot.py 225-232) likewise wraps `run_once()` in no
`try`, so an exception here terminates the process.  `save_cache`
catches its own exceptions; the resulting in-memory cache is returned. -/
def run_onceV (details : Option Int → DetailV) (post : String → PostOutcome)
    (msgS : SteamDealV → String → String) (msgE : EpicDealV → String → String)
    (steamDeals : List SteamDealV) (epicDeals : List EpicDealV)
    (cache : Cache) : Except PyErr Cache := do
  let s ← process_steam_dealsV details post msgS cache.steam steamDeals
  let e ← process_epic_dealsV post msgE cache.epic epicDeals
  pure ⟨s, e⟩

/-! ### Concrete inputs used by counterexamples and witnesses -/

/-- An eligible, well-formed Steam specials item (80% off). -/
def steamItemA : SteamItem :=
  ⟨some 10, some "GoodGame", some 80, some 499, some "USD"⟩

/-- An Epic catalog element with `originalPrice = 0` and a nonzero
explicit `discountPrice`. -/
def epicElZeroOrig : EpicElement :=
  ⟨some "zero-orig", some "WeirdlyPriced", some "odd", ⟨some 0, some 500, none⟩⟩

/-! ### Helper lemmas -/

/-- The cache set only grows during a processing pass. -/
theorem processLoopW_mem_cache {α β : Type} (idOf : α → String) (announce : α → β)
    (ds : List α) : ∀ (cache : List String) (x : String), x ∈ cache →
    x ∈ (processLoopW idOf announce cache ds).1 := by
  induction ds with
  | nil => intro cache x hx; simpa [processLoopW] using hx
  | cons d rest ih =>
    intro cache x hx
    by_cases h : idOf d ∈ cache
    · simpa [processLoopW, h] using ih cache x hx
    · simpa [processLoopW, h] using ih (idOf d :: cache) x (List.mem_cons_of_mem _ hx)

/-- After a pass, every fetched deal's id string is in the cache set. -/
theorem processLoopW_id_mem {α β : Type} (idOf : α → String) (announce : α → β)
    (ds : List α) : ∀ (cache : List String) (d : α), d ∈ ds →
    idOf d ∈ (processLoopW idOf announce cache ds).1 := by
  induction ds with
  | nil => intro cache d hd; cases hd
  | cons d0 rest ih =>
    intro cache d hd
    rcases List.mem_cons.mp hd with h | h
    · subst h
      by_cases hc : idOf d ∈ cache
      · simpa [processLoopW, hc] using
          processLoopW_mem_cache idOf announce rest cache (idOf d) hc
      · simpa [processLoopW, hc] using
          processLoopW_mem_cache idOf announce rest (idOf d :: cache) (idOf d)
            (List.mem_cons_self _ _)
    · by_cases hc : idOf d0 ∈ cache
      · simpa [processLoopW, hc] using ih cache d h
      · simpa [processLoopW, hc] using ih (idOf d0 :: cache) d h

/-- Every announced entry comes from the fetched list. -/
theorem processLoopW_announced_sub {α β : Type} (idOf : α → String)
    (announce : α → β) (ds : List α) : ∀ (cache : List String) (p : α × β),
    p ∈ (processLoopW idOf announce cache ds).2 → p.1 ∈ ds := by
  induction ds with
  | nil => intro cache p hp; simp [processLoopW] at hp
  | cons d rest ih =>
    intro cache p hp
    by_cases hc : idOf d ∈ cache
    · simp only [processLoopW, if_pos hc] at hp
      exact List.mem_cons_of_mem _ (ih cache p hp)
    · simp only [processLoopW, if_neg hc, List.mem_cons] at hp
      rcases hp with h | h
      · subst h; exact List.mem_cons_self _ _
      · exact List.mem_cons_of_mem _ (ih (idOf d :: cache) p h)

/-- An id string already in the cache set is never among the announced
ids: the deal is skipped by the `continue` at bot.py 189-190 / 204-205. -/
theorem processLoopW_skip {α β : Type} (idOf : α → String) (announce : α → β)
    (ds : List α) : ∀ (cache : List String) (x : String), x ∈ cache →
    x ∉ (processLoopW idOf announce cache ds).2.map (fun p => idOf p.1) := by
  induction ds with
  | nil => intro cache x hx; simp [processLoopW]
  | cons d rest ih =>
    intro cache x hx
    by_cases hc : idOf d ∈ cache
    · simpa [processLoopW, hc] using ih cache x hx
    · have hne : x ≠ idOf d := fun h => hc (h ▸ hx)
      have hrest := ih (idOf d :: cache) x (List.mem_cons_of_mem _ hx)
      simp only [processLoopW, if_neg hc, List.map_cons, List.mem_cons]
      rintro (h | h)
      · exact hne h
      · exact hrest h

/-- Within one pass, no id string is announced twice. -/
theorem processLoopW_nodup {α β : Type} (idOf : α → String) (announce : α → β)
    (ds : List α) : ∀ (cache : List String),
    ((processLoopW idOf announce cache ds).2.map (fun p => idOf p.1)).Nodup := by
  induction ds with
  | nil => intro cache; simp [processLoopW]
  | cons d rest ih =>
    intro cache
    by_cases hc : idOf d ∈ cache
    · simpa [processLoopW, hc] using ih cache
    · simp only [processLoopW, if_neg hc, List.map_cons, List.nodup_cons]
      exact ⟨processLoopW_skip idOf announce rest (idOf d :: cache) (idOf d)
        (List.mem_cons_self _ _), ih (idOf d :: cache)⟩

/-- A pass over deals whose ids are all cached announces nothing. -/
theorem processLoopW_all_cached {α β : Type} (idOf : α → String) (announce : α → β)
    (ds : List α) : ∀ (cache : List String), (∀ d ∈ ds, idOf d ∈ cache) →
    (processLoopW idOf announce cache ds).2 = [] := by
  induction ds with
  | nil => intro cache _; simp [processLoopW]
  | cons d rest ih =>
    intro cache hall
    have hc : idOf d ∈ cache := hall d (List.mem_cons_self _ _)
    simpa [processLoopW, hc] using
      ih cache (fun d' hd' => hall d' (List.mem_cons_of_mem _ hd'))

/-- The resulting cache set does not depend on what the announcement body
does: the id is added unconditionally after the attempt. -/
theorem processLoopW_cache_indep {α β γ : Type} (idOf : α → String)
    (a₁ : α → β) (a₂ : α → γ) (ds : List α) : ∀ (cache : List String),
    (processLoopW idOf a₁ cache ds).1 = (processLoopW idOf a₂ cache ds).1 := by
  induction ds with
  | nil => intro cache; simp [processLoopW]
  | cons d rest ih =>
    intro cache
    by_cases hc : idOf d ∈ cache
    · simpa [processLoopW, hc] using ih cache
    · simpa [processLoopW, hc] using ih (idOf d :: cache)

/-- A well-formed prefix of the Steam item list is processed normally;
the first raising item aborts the loop with the deals accumulated so far. -/
theorem steamLoop_stop (rest : List (Option SteamItem)) :
    ∀ (pre : List (Option SteamItem)) (acc : List SteamDeal),
    (∀ x ∈ pre, x ≠ none) →
    steamLoop acc (pre ++ none :: rest) = steamLoop acc pre := by
  intro pre
  induction pre with
  | nil => intro acc _; simp [steamLoop]
  | cons hd tl ih =>
    intro acc h
    obtain ⟨item, rfl⟩ :=
      Option.ne_none_iff_exists'.mp (h hd (List.mem_cons_self _ _))
    simp only [List.cons_append, steamLoop]
    exact ih _ (fun x hx => h x (List.mem_cons_of_mem _ hx))

/-- Epic counterpart of `steamLoop_stop`. -/
theorem epicLoop_stop (rest : List (Option EpicElement)) :
    ∀ (pre : List (Option EpicElement)) (acc : List EpicDeal),
    (∀ x ∈ pre, x ≠ none) →
    epicLoop acc (pre ++ none :: rest) = epicLoop acc pre := by
  intro pre
  induction pre with
  | nil => intro acc _; simp [epicLoop]
  | cons hd tl ih =>
    intro acc h
    obtain ⟨el, rfl⟩ :=
      Option.ne_none_iff_exists'.mp (h hd (List.mem_cons_self _ _))
    simp only [List.cons_append, epicLoop]
    exact ih _ (fun x hx => h x (List.mem_cons_of_mem _ hx))

/-- Python's exact `discount / original <= 0.5` over the rationals, as an
integer inequality, for a positive denominator. -/
theorem ratio_le_half_iff (o d : Int) (ho : 0 < o) :
    ((d : ℚ) / (o : ℚ) ≤ 1 / 2) ↔ 2 * d ≤ o := by
  rw [div_le_div_iff₀ (by exact_mod_cast ho) (by norm_num : (0 : ℚ) < 2)]
  rw [one_mul, mul_comm]
  norm_cast

/-- `str()` undoes the string embedding on every element. -/
theorem map_pyStrScalar_str (l : List String) :
    (l.map PyScalar.str).map pyStrScalar = l := by
  induction l with
  | nil => rfl
  | cons h t ih => simp [pyStrScalar, ih]

/-- Converting a persisted array of strings yields those strings. -/
theorem pyIterStrs_strs (l : List String) :
    pyIterStrs (.list (l.map PyScalar.str)) = .ok l := by
  show Except.ok ((l.map PyScalar.str).map pyStrScalar) = Except.ok l
  rw [map_pyStrScalar_str]

/-- Loading a parsed object holding two string arrays yields their
elements. -/
theorem load_cache_strs (a b : List String) :
    load_cache (.parsedDict (some (.list (a.map PyScalar.str)))
      (some (.list (b.map PyScalar.str)))) = ⟨a, b⟩ := by
  have h : loadConvert (some (.list (a.map PyScalar.str)))
      (some (.list (b.map PyScalar.str))) = .ok ⟨a, b⟩ := by
    simp only [loadConvert, Option.getD_some, pyIterStrs_strs]
    rfl
  simp [load_cache, h]

/-! ### Claims about the summarizer (C2, C10) -/

/-- Claim C2, counterexample: with no external service configured, the
summarizer applied to the example input returns
`"A great game.  It has dragons."` — with two spaces after the first
period, because the second period-split segment keeps its leading space —
not the claimed `"A great game. It has dragons."`. -/
theorem summarize_example_cex :
    summarize_text none "A great game. It has dragons. It is long."
        = "A great game.  It has dragons." ∧
    summarize_text none "A great game. It has dragons. It is long."
        ≠ "A great game. It has dragons." := by
  exact ⟨by decide, by decide⟩

/-- Claim C2, amended: with no external summarization service configured,
`summarize_text` applied to `"A great game. It has dragons. It is long."`
returns exactly `"A great game.  It has dragons."` (the split segments
keep their leading spaces, so joining with `". "` yields two spaces
between the sentences); in general the local fallback replaces newlines
with spaces, splits on period characters, joins the first two resulting
segments with `". "`, strips outer whitespace, and appends a trailing
period. -/
theorem summarize_example_amended :
    summarize_text none "A great game. It has dragons. It is long."
      = "A great game.  It has dragons." := by decide

/-- Claim C10: with no external service configured, the summarizer on the
empty string returns exactly `"."`; in general the fallback's result ends
in the appended period and thus always has positive length, so no deal is
announced with a fully empty summary field. -/
theorem summarize_empty :
    summarize_text none "" = "." ∧
    ∀ text : String, 0 < (summarize_text none text).length := by
  refine ⟨by decide, ?_⟩
  intro text
  show 0 < (summarize_fallback text).length
  simp [summarize_fallback, String.length]

/-! ### Claims about the Epic fetcher (C3) -/

/-- Claim C3, counterexample: the catalog element with `originalPrice = 0`
and an explicit nonzero `discountPrice = 500` satisfies the claim's
inclusion rule (zero original treated as included) but is excluded by the
code: `original` is falsy, so only `discount == 0` is tested, and it
fails. -/
theorem epic_zero_original_cex :
    epicEligibleSpec epicElZeroOrig.price = true ∧
    epicEligible epicElZeroOrig.price = false ∧
    fetch_epic_deals (.items [some epicElZeroOrig]) = [] := by
  refine ⟨by decide, by decide, ?_⟩
  show epicLoop [] [some epicElZeroOrig] = []
  have h : epicEligible epicElZeroOrig.price = false := by decide
  simp [epicLoop, h]

/-- Claim C3, amended: an Epic catalog element with both prices present is
included iff `originalPrice` is nonzero and
`discountPrice / originalPrice <= 0.5` (equivalently `2 * discountPrice <=
originalPrice`), or `discountPrice == 0`; when `originalPrice == 0` the
division is short-circuited away and the element is included only if
`discountPrice` (which defaults to `originalPrice`) is `0`, in which case
`discount_percent = 100`; when `originalPrice` is nonzero,
`discount_percent = 100 - floor(discountPrice * 100 / originalPrice)`.
The spec's examples hold: `(1000, 500)` gives 50, `(1000, 0)` gives 100,
and `originalPrice = 0` with no explicit `discountPrice` is included with
100. -/
theorem epic_eligibility_amended (o d : Int) (cc : Option String) (ho : 0 ≤ o) :
    (epicEligible ⟨some o, some d, cc⟩ = true ↔ ((o ≠ 0 ∧ 2 * d ≤ o) ∨ d = 0)) ∧
    (o = 0 → (epicEligible ⟨some o, some d, cc⟩ = true ↔ d = 0)) ∧
    (o ≠ 0 → epicDiscountPercent ⟨some o, some d, cc⟩ = 100 - (d * 100).fdiv o) ∧
    (o = 0 → epicDiscountPercent ⟨some o, some d, cc⟩ = 100) ∧
    epicEligible ⟨some 1000, some 500, none⟩ = true ∧
    epicDiscountPercent ⟨some 1000, some 500, none⟩ = 50 ∧
    epicEligible ⟨some 1000, some 0, none⟩ = true ∧
    epicDiscountPercent ⟨some 1000, some 0, none⟩ = 100 ∧
    epicEligible ⟨some 0, none, none⟩ = true ∧
    epicDiscountPercent ⟨some 0, none, none⟩ = 100 := by
  have key : epicEligible ⟨some o, some d, cc⟩ = true
      ↔ ((o ≠ 0 ∧ (d : ℚ) / (o : ℚ) ≤ 1 / 2) ∨ d = 0) := by
    simp [epicEligible]
  refine ⟨?_, ?_, ?_, ?_, by norm_num [epicEligible], by decide,
    by norm_num [epicEligible], by decide, by decide, by decide⟩
  · rw [key]
    constructor
    · rintro (⟨h0, hle⟩ | hd)
      · exact Or.inl ⟨h0, (ratio_le_half_iff o d (ho.lt_of_ne (Ne.symm h0))).mp hle⟩
      · exact Or.inr hd
    · rintro (⟨h0, hle⟩ | hd)
      · exact Or.inl ⟨h0, (ratio_le_half_iff o d (ho.lt_of_ne (Ne.symm h0))).mpr hle⟩
      · exact Or.inr hd
  · intro h0
    subst h0
    rw [key]
    simp
  · intro h0
    simp [epicDiscountPercent, h0]
  · intro h0
    simp [epicDiscountPercent, h0]

/-- Witness for `epic_eligibility_amended` at the spec's own example. -/
theorem epic_eligibility_amended_witness :
    (0 : Int) ≤ 1000 ∧ epicDiscountPercent ⟨some 1000, some 500, none⟩ = 50 :=
  ⟨by decide, (epic_eligibility_amended 1000 500 none (by decide)).2.2.2.2.2.1⟩

/-! ### Claims about the Steam fetcher (C4) -/

/-- Claim C4: a Steam specials item with both fields present is included
iff `discount_percent >= 50` or `final_price == 0`; the emitted deal's
`final_price` is the raw integer price divided by 100; `discount_percent
= 50` is included, `discount_percent = 49` with nonzero price is
excluded, and `final_price = 0` is included regardless of the discount. -/
theorem steam_eligibility (i : Option Int) (n c : Option String) (dp fp : Int) :
    (steamEligible ⟨i, n, some dp, some fp, c⟩ = true ↔ (50 ≤ dp ∨ fp = 0)) ∧
    (steamDealOf ⟨i, n, some dp, some fp, c⟩).final_price = (fp : ℚ) / 100 ∧
    (fetch_steam_deals (.items [some ⟨i, n, some dp, some fp, c⟩])
      = if 50 ≤ dp ∨ fp = 0 then [steamDealOf ⟨i, n, some dp, some fp, c⟩]
        else []) ∧
    steamEligible ⟨i, n, some 50, some 999, c⟩ = true ∧
    (fp ≠ 0 → steamEligible ⟨i, n, some 49, some fp, c⟩ = false) ∧
    steamEligible ⟨i, n, some dp, some 0, c⟩ = true := by
  have key : steamEligible ⟨i, n, some dp, some fp, c⟩ = true ↔ (50 ≤ dp ∨ fp = 0) := by
    simp [steamEligible]
  refine ⟨key, rfl, ?_, by simp [steamEligible], ?_, by simp [steamEligible]⟩
  · by_cases hel : 50 ≤ dp ∨ fp = 0
    · have ht : steamEligible ⟨i, n, some dp, some fp, c⟩ = true := key.mpr hel
      show steamLoop [] [some ⟨i, n, some dp, some fp, c⟩] = _
      simp [steamLoop, ht, hel]
    · have hf : steamEligible ⟨i, n, some dp, some fp, c⟩ = false := by
        cases hb : steamEligible ⟨i, n, some dp, some fp, c⟩ with
        | false => rfl
        | true => exact absurd (key.mp hb) hel
      show steamLoop [] [some ⟨i, n, some dp, some fp, c⟩] = _
      simp [steamLoop, hf, hel]
  · intro hfp
    simp [steamEligible, hfp]

/-- Witness for `steam_eligibility`: the inner implication at a concrete
nonzero price. -/
theorem steam_eligibility_witness :
    (3 : Int) ≠ 0 ∧
    steamEligible ⟨some 1, some "g", some 49, some 3, some "USD"⟩ = false :=
  ⟨by decide,
    (steam_eligibility (some 1) (some "g") (some "USD") 7 3).2.2.2.2.1 (by decide)⟩

/-! ### Claims about fetch failure handling (C5) -/

/-- Claim C5, counterexample: a fetch whose item iteration fails after one
well-formed eligible item does not return an empty list — it returns the
deal accumulated before the failure. -/
theorem fetch_partial_cex :
    fetch_steam_deals (.items [some steamItemA, none]) = [steamDealOf steamItemA] ∧
    fetch_steam_deals (.items [some steamItemA, none]) ≠ [] := by
  constructor
  · show steamLoop [] [some steamItemA, none] = [steamDealOf steamItemA]
    have h : steamEligible steamItemA = true := by decide
    simp [steamLoop, h]
  · intro h
    have h1 : steamLoop [] [some steamItemA, none] = [steamDealOf steamItemA] := by
      have h : steamEligible steamItemA = true := by decide
      simp [steamLoop, h]
    rw [show fetch_steam_deals (.items [some steamItemA, none])
        = steamLoop [] [some steamItemA, none] from rfl, h1] at h
    cases h

/-- Claim C5, amended: a failure occurring before item iteration begins
(request exception, HTTP error status, JSON decode failure) yields an
empty deal list for that store; a failure raised while iterating items
stops the loop and the fetcher returns exactly the deals accumulated
before the failing item (not necessarily empty).  In all cases the
fetcher returns normally — the failure is logged, not raised — and the
cycle continues with the other store. -/
theorem fetch_failure_amended (pre rest : List (Option SteamItem))
    (preE restE : List (Option EpicElement))
    (hs : ∀ x ∈ pre, x ≠ none) (he : ∀ x ∈ preE, x ≠ none) :
    fetch_steam_deals .fail = [] ∧
    fetch_epic_deals .fail = [] ∧
    fetch_steam_deals (.items (pre ++ none :: rest))
      = fetch_steam_deals (.items pre) ∧
    fetch_epic_deals (.items (preE ++ none :: restE))
      = fetch_epic_deals (.items preE) := by
  refine ⟨rfl, rfl, ?_, ?_⟩
  · exact steamLoop_stop rest pre [] hs
  · exact epicLoop_stop restE preE [] he

/-- Witness for `fetch_failure_amended` at a one-item prefix. -/
theorem fetch_failure_amended_witness :
    (∀ x ∈ [some steamItemA], x ≠ (none : Option SteamItem)) ∧
    fetch_steam_deals (.items ([some steamItemA] ++ none :: []))
      = fetch_steam_deals (.items [some steamItemA]) :=
  ⟨by decide,
    (fetch_failure_amended [some steamItemA] [] [] [] (by decide) (by decide)).2.2.1⟩

/-! ### Claims about deduplication (C1) and seen-marking (C9) -/

/-- Claim C1: a deal whose id string is already in its store's cache set
is skipped entirely — nothing of the announcement body (enrichment,
summarization, webhook call) runs for it, so its id never appears among
the announced ids; within one pass no id is announced twice; and a second
pass over the same fetched deal lists, starting from the cache the first
pass produced, announces nothing — so each (store, id) pair is announced
at most once across the two runs. -/
theorem dedup_skip_and_idempotent
    (details : Option Int → Detail) (summarize : String → String)
    (post : String → PostOutcome) (cacheS cacheE : List String)
    (steamDeals : List SteamDeal) (epicDeals : List EpicDeal)
    (x : String) (hxS : x ∈ cacheS) (hxE : x ∈ cacheE) :
    x ∉ (process_steam_deals details summarize post cacheS steamDeals).2.map
        (fun p => steamDealIdStr p.1) ∧
    x ∉ (process_epic_deals summarize post cacheE epicDeals).2.map
        (fun p => epicDealIdStr p.1) ∧
    ((process_steam_deals details summarize post cacheS steamDeals).2.map
        (fun p => steamDealIdStr p.1)).Nodup ∧
    ((process_epic_deals summarize post cacheE epicDeals).2.map
        (fun p => epicDealIdStr p.1)).Nodup ∧
    (process_steam_deals details summarize post
        (process_steam_deals details summarize post cacheS steamDeals).1
        steamDeals).2 = [] ∧
    (process_epic_deals summarize post
        (process_epic_deals summarize post cacheE epicDeals).1 epicDeals).2
      = [] := by
  refine ⟨processLoopW_skip _ _ _ _ x hxS, processLoopW_skip _ _ _ _ x hxE,
    processLoopW_nodup _ _ _ _, processLoopW_nodup _ _ _ _, ?_, ?_⟩
  · exact processLoopW_all_cached _ _ _ _
      (fun d hd => processLoopW_id_mem _ _ _ _ d hd)
  · exact processLoopW_all_cached _ _ _ _
      (fun d hd => processLoopW_id_mem _ _ _ _ d hd)

/-- Witness for `dedup_skip_and_idempotent`: a cached id is not announced
again in a second pass over the same one-deal list. -/
theorem dedup_skip_and_idempotent_witness :
    "10" ∈ ["10"] ∧
    (process_steam_deals (fun _ => ⟨"", "Unknown"⟩) (fun s => s)
        (fun _ => .skippedNoUrl)
        (process_steam_deals (fun _ => ⟨"", "Unknown"⟩) (fun s => s)
          (fun _ => .skippedNoUrl) ["10"] [steamDealOf steamItemA]).1
        [steamDealOf steamItemA]).2 = [] :=
  ⟨by decide,
    (dedup_skip_and_idempotent (fun _ => ⟨"", "Unknown"⟩) (fun s => s)
      (fun _ => .skippedNoUrl) ["10"] ["10"] [steamDealOf steamItemA] []
      "10" (by decide) (by decide)).2.2.2.2.1⟩

/-- Claim C9: a deal that reaches announcement has its id added to the
in-memory cache set for its store after the announcement attempt,
whatever `post_to_discord` observes — webhook unset (skipped), success,
non-success status, or a raised-and-caught exception.  The resulting
cache set is identical under any two webhook behaviours (so a failed post
is not retried: the id is cached either way), and every announced deal's
id is in the resulting cache set. -/
theorem mark_seen_after_attempt
    (details : Option Int → Detail) (summarize : String → String)
    (url₁ url₂ : Option String) (send₁ send₂ : String → WebhookResp)
    (cacheS cacheE : List String) (steamDeals : List SteamDeal)
    (epicDeals : List EpicDeal) :
    (process_steam_deals details summarize (post_to_discord url₁ send₁)
        cacheS steamDeals).1
      = (process_steam_deals details summarize (post_to_discord url₂ send₂)
          cacheS steamDeals).1 ∧
    (process_epic_deals summarize (post_to_discord url₁ send₁)
        cacheE epicDeals).1
      = (process_epic_deals summarize (post_to_discord url₂ send₂)
          cacheE epicDeals).1 ∧
    (∀ p, p ∈ (process_steam_deals details summarize
          (post_to_discord url₁ send₁) cacheS steamDeals).2 →
      steamDealIdStr p.1 ∈ (process_steam_deals details summarize
          (post_to_discord url₁ send₁) cacheS steamDeals).1) ∧
    (∀ p, p ∈ (process_epic_deals summarize (post_to_discord url₁ send₁)
          cacheE epicDeals).2 →
      epicDealIdStr p.1 ∈ (process_epic_deals summarize
          (post_to_discord url₁ send₁) cacheE epicDeals).1) := by
  refine ⟨processLoopW_cache_indep _ _ _ _ _,
    processLoopW_cache_indep _ _ _ _ _, ?_, ?_⟩
  · intro p hp
    exact processLoopW_id_mem _ _ _ _ p.1 (processLoopW_announced_sub _ _ _ _ p hp)
  · intro p hp
    exact processLoopW_id_mem _ _ _ _ p.1 (processLoopW_announced_sub _ _ _ _ p hp)

/-- Witness for `mark_seen_after_attempt`: the cache after a pass is the
same whether the webhook is unset or every post raises. -/
theorem mark_seen_after_attempt_witness :
    (process_steam_deals (fun _ => ⟨"", "Unknown"⟩) (fun s => s)
        (post_to_discord none (fun _ => .raised)) [] [steamDealOf steamItemA]).1
      = (process_steam_deals (fun _ => ⟨"", "Unknown"⟩) (fun s => s)
          (post_to_discord (some "hook") (fun _ => .status 500)) []
          [steamDealOf steamItemA]).1 :=
  (mark_seen_after_attempt (fun _ => ⟨"", "Unknown"⟩) (fun s => s)
    none (some "hook") (fun _ => .raised) (fun _ => .status 500)
    [] [] [steamDealOf steamItemA] []).1

/-! ### Claims about the persisted cache (C7, C8) -/

/-- Claim C7: `save_cache` followed by `load_cache` reproduces the
in-memory cache exactly, and loading any reordering of the persisted
arrays yields sets with the same members for both stores: order of the
array elements in the file is not significant. -/
theorem cache_roundtrip (c : Cache) (ls le : List String)
    (hs : ls.Perm c.steam) (he : le.Perm c.epic) :
    load_cache (save_cache c) = c ∧
    (∀ x, x ∈ (load_cache (.parsedDict (some (.list (ls.map PyScalar.str)))
        (some (.list (le.map PyScalar.str))))).steam ↔ x ∈ c.steam) ∧
    (∀ x, x ∈ (load_cache (.parsedDict (some (.list (ls.map PyScalar.str)))
        (some (.list (le.map PyScalar.str))))).epic ↔ x ∈ c.epic) := by
  refine ⟨?_, ?_, ?_⟩
  · show load_cache (.parsedDict (some (.list (c.steam.map PyScalar.str)))
      (some (.list (c.epic.map PyScalar.str)))) = c
    rw [load_cache_strs]
  · intro x
    rw [load_cache_strs]
    exact hs.mem_iff
  · intro x
    rw [load_cache_strs]
    exact he.mem_iff

/-- Witness for `cache_roundtrip` with a reordered steam array. -/
theorem cache_roundtrip_witness :
    (["b", "a"].Perm ["a", "b"]) ∧
    load_cache (save_cache ⟨["a", "b"], ["x"]⟩) = ⟨["a", "b"], ["x"]⟩ :=
  ⟨by decide,
    (cache_roundtrip ⟨["a", "b"], ["x"]⟩ ["b", "a"] ["x"] (by decide)
      (by decide)).1⟩

/-- Claim C8: `load_cache` fails open — a missing file, an unreadable or
unparseable file, a file parsed to a non-object, and any conversion
failure of the parsed object all yield a cache of two empty sets; the
function is total, so no file state makes it raise. -/
theorem load_fails_open :
    load_cache .missing = ⟨[], []⟩ ∧
    load_cache .unreadable = ⟨[], []⟩ ∧
    load_cache .parsedNonDict = ⟨[], []⟩ ∧
    ∀ sv ev e, loadConvert sv ev = .error e →
      load_cache (.parsedDict sv ev) = ⟨[], []⟩ := by
  refine ⟨rfl, rfl, rfl, ?_⟩
  intro sv ev e h
  simp [load_cache, h]

/-- Witness for `load_fails_open`: a cache file whose steam key holds a
JSON number (not iterable, so the conversion raises `TypeError`). -/
theorem load_fails_open_witness :
    loadConvert (some (.intv 3)) none = .error .typeError ∧
    load_cache (.parsedDict (some (.intv 3)) none) = ⟨[], []⟩ :=
  ⟨rfl, load_fails_open.2.2.2 (some (.intv 3)) none .typeError rfl⟩

/-! ### Claim about cycle-level error propagation (C6) -/

/-- Claim C6, evaluation at the failing input: a cycle over one eligible
Epic deal whose description field is the JSON number `5` (with no
summarization service configured) raises `AttributeError` inside
`summarize_text`'s fallback; neither `process_epic_deals`, nor
`run_once`, nor `main`'s loop catches it, so — contrary to the claim —
the error escapes the cycle and terminates the process. -/
theorem run_once_uncaught_error :
    run_onceV (fun _ => ⟨.str "", "Unknown"⟩) (fun _ => .skippedNoUrl)
      (fun _ s => s) (fun _ s => s) []
      [{ id := some "g1", description := .int 5 }] ⟨[], []⟩
      = .error .attributeError := rfl

end GameDealsBuddy
